import Mathlib

set_option maxHeartbeats 1000000

/-!
Verification development for the dataforge database layer
(src-tauri/src/database and src-tauri/src/commands.rs).

The Rust source is shallowly embedded: enums become inductives, structs become
structures, fallible functions return Except, machine integers become Nat, and
the stateful/async parts (adapters over connection pools, the global lifecycle
state, the query orchestrator) become explicit state passing, with the engine
side of each network round trip supplied by an oracle parameter.
-/

namespace Dataforge

/-- Supported database types (database/adapter/mod.rs, enum DatabaseType). -/
inductive DatabaseType
  | PostgreSQL
  | MySQL
  | SQLite
deriving DecidableEq, Repr

/-- database/adapter/mod.rs, DatabaseType::default_port. -/
def DatabaseType.default_port : DatabaseType → Option Nat
  | .PostgreSQL => some 5432
  | .MySQL => some 3306
  | .SQLite => none

/-- database/adapter/mod.rs, DatabaseType::requires_host. -/
def DatabaseType.requires_host : DatabaseType → Bool
  | .PostgreSQL | .MySQL => true
  | .SQLite => false

/-- database/adapter/mod.rs, DatabaseType::requires_credentials. -/
def DatabaseType.requires_credentials : DatabaseType → Bool
  | .PostgreSQL | .MySQL => true
  | .SQLite => false

/-- database/error.rs, enum DatabaseError (the variants the embedded code builds). -/
inductive DatabaseError
  | ConnectionFailed (msg : String)
  | QueryFailed (msg : String)
deriving DecidableEq, Repr

/-- error.rs, enum AppError (the variants the embedded code builds). -/
inductive AppError
  | Database (e : DatabaseError)
  | Validation (msg : String)
  | Cancelled
deriving DecidableEq, Repr

/-- database/adapter/mod.rs, struct ConnectionParams.
HashMap additional_params is embedded as an association list. -/
structure ConnectionParams where
  database_type : DatabaseType
  host : Option String
  port : Option Nat
  database : String
  username : Option String
  password : Option String
  ssl_mode : Option String
  connection_timeout : Option Nat
  max_connections : Option Nat
  additional_params : List (String × String)
deriving DecidableEq, Repr

/-- database/adapter/mod.rs, ConnectionParams::new. -/
def ConnectionParams.new (database_type : DatabaseType) (database : String) :
    ConnectionParams where
  database_type := database_type
  host := if database_type.requires_host then some "localhost" else none
  port := database_type.default_port
  database := database
  username := none
  password := none
  ssl_mode := none
  connection_timeout := some 5
  max_connections := some 5
  additional_params := []

/-- database/adapter/mod.rs, ConnectionParams::validate. -/
def ConnectionParams.validate (p : ConnectionParams) : Except AppError Unit :=
  if p.database_type.requires_host && p.host.isNone then
    .error (.Validation "Host is required")
  else if p.database_type.requires_credentials && p.username.isNone then
    .error (.Validation "Username is required")
  else if p.database.isEmpty then
    .error (.Validation "Database name is required")
  else
    .ok ()

/-! ## Dialects (database/dialect/postgres.rs, mysql.rs, sqlite.rs)

The Rust call `identifier.replace(q, qq)` where `q` is a single character and `qq`
its doubling is embedded as `doubleChar`, which doubles every occurrence of
the character. -/

/-- Double every occurrence of the character `q` (embeds
`str::replace(q, "qq")` for a one-character pattern). -/
def doubleChar (q : Char) : List Char → List Char
  | [] => []
  | c :: cs => if c = q then q :: q :: doubleChar q cs else c :: doubleChar q cs

namespace PostgreSQLDialect

/-- database/dialect/postgres.rs, PostgreSQLDialect::quote_identifier. -/
def quote_identifier (identifier : String) : String :=
  ⟨'"' :: doubleChar '"' identifier.data ++ ['"']⟩

/-- database/dialect/postgres.rs, PostgreSQLDialect::limit_clause. -/
def limit_clause (limit offset : Option Nat) : String :=
  let clause := ""
  let clause := match limit with
    | some limit_val => clause ++ " LIMIT " ++ toString limit_val
    | none => clause
  match offset with
  | some offset_val => clause ++ " OFFSET " ++ toString offset_val
  | none => clause

end PostgreSQLDialect

namespace MySQLDialect

/-- database/dialect/mysql.rs, MySQLDialect::quote_identifier. -/
def quote_identifier (identifier : String) : String :=
  ⟨'`' :: doubleChar '`' identifier.data ++ ['`']⟩

/-- database/dialect/mysql.rs, MySQLDialect::limit_clause. -/
def limit_clause (limit offset : Option Nat) : String :=
  match limit, offset with
  | some limit_val, some offset_val =>
      " LIMIT " ++ toString limit_val ++ " OFFSET " ++ toString offset_val
  | some limit_val, none => " LIMIT " ++ toString limit_val
  | none, some offset_val =>
      " LIMIT 18446744073709551615 OFFSET " ++ toString offset_val
  | none, none => ""

end MySQLDialect

namespace SQLiteDialect

/-- database/dialect/sqlite.rs, SQLiteDialect::quote_identifier. -/
def quote_identifier (identifier : String) : String :=
  ⟨'"' :: doubleChar '"' identifier.data ++ ['"']⟩

/-- database/dialect/sqlite.rs, SQLiteDialect::limit_clause. -/
def limit_clause (limit offset : Option Nat) : String :=
  let clause := ""
  let clause := match limit with
    | some limit_val => clause ++ " LIMIT " ++ toString limit_val
    | none => clause
  match offset with
  | some offset_val =>
      if limit.isNone then clause ++ " LIMIT -1 OFFSET " ++ toString offset_val
      else clause ++ " OFFSET " ++ toString offset_val
  | none => clause

end SQLiteDialect

/-! ## Shared result shapes (database/adapter/mod.rs) -/

/-- database/adapter/mod.rs, struct QueryRow. -/
structure QueryRow where
  columns : List String
  values : List (Option String)
deriving DecidableEq, Repr

/-- database/adapter/mod.rs, struct ColumnInfo. -/
structure ColumnInfo where
  name : String
  data_type : String
  is_nullable : Bool
deriving DecidableEq, Repr

/-- database/adapter/mod.rs, struct QueryResult. -/
structure QueryResult where
  columns : List ColumnInfo
  rows : List QueryRow
  rows_affected : Option Nat
  execution_time : Option Nat
deriving DecidableEq, Repr

/-- database/adapter/mod.rs, struct TableInfo. -/
structure TableInfo where
  name : String
  schema : Option String
  table_type : String
  row_count : Option Int
deriving DecidableEq, Repr

/-- database/adapter/mod.rs, struct DatabaseMetadata. -/
structure DatabaseMetadata where
  version : String
  database_name : String
  size : Option Int
  encoding : Option String
deriving DecidableEq, Repr

/-- Display of DatabaseError (the thiserror `#[error(...)]` format strings
in database/error.rs). -/
def DatabaseError.toMessage : DatabaseError → String
  | .ConnectionFailed msg => "Connection failed: " ++ msg
  | .QueryFailed msg => "Query failed: " ++ msg

/-- Display of AppError (the thiserror `#[error(...)]` format strings in
error.rs). -/
def AppError.toMessage : AppError → String
  | .Database e => "Database error: " ++ e.toMessage
  | .Validation msg => "Validation error: " ++ msg
  | .Cancelled => "Operation cancelled"

/-- The error value every pool-guarded adapter operation returns when no
pool is stored (get_pool in each adapter file). -/
def notConnected : AppError :=
  .Database (.ConnectionFailed "Not connected to database")

/-! ## Rust `str::trim`

The String.trim of Lean core is defined through byte positions and does not reduce
well, so the embedding of Rust `str::trim` works on the character list: drop
the maximal whitespace prefix and suffix. -/

/-- Embedding of Rust `str::trim` on character lists. -/
def trimChars (cs : List Char) : List Char :=
  ((cs.dropWhile Char.isWhitespace).reverse.dropWhile Char.isWhitespace).reverse

/-- Embedding of Rust `str::trim`. -/
def trimString (s : String) : String :=
  ⟨trimChars s.data⟩

/-! ## Inverse of identifier quoting, used to state the round-trip claim.

`collapseDoubled` collapses each doubled occurrence of the quote character;
`unquoteIdent` strips the outer quote pair and collapses the interior. -/

/-- Collapse every doubled occurrence of `q` back to a single one. -/
def collapseDoubled (q : Char) : List Char → List Char
  | [] => []
  | [c] => [c]
  | c1 :: c2 :: cs =>
    if c1 = q ∧ c2 = q then q :: collapseDoubled q cs
    else c1 :: collapseDoubled q (c2 :: cs)

/-- Strip an outer pair of `q` quotes and collapse doubled `q` inside. -/
def unquoteIdent (q : Char) (s : String) : Option String :=
  match s.data with
  | [] => none
  | c :: rest =>
    if c = q ∧ rest.getLast? = some q then some ⟨collapseDoubled q rest.dropLast⟩
    else none

/-! ## Adapters (database/adapter/postgres.rs, mysql.rs, sqlite.rs)

Each adapter owns an optional connection pool and a connected flag.  The pool
handle itself carries no observable data here, so it is embedded as Unit; the
engine side of every network round trip (pool opening, fetches) is supplied by
an oracle argument of Except type, standing for the outcome the driver
reported. -/

/-- database/adapter/postgres.rs, struct PostgresAdapter. -/
structure PostgresAdapter where
  pool : Option Unit
  connected : Bool
deriving DecidableEq, Repr

namespace PostgresAdapter

/-- PostgresAdapter::new. -/
def new : PostgresAdapter := { pool := none, connected := false }

/-- PostgresAdapter::get_pool. -/
def get_pool (a : PostgresAdapter) : Except AppError Unit :=
  match a.pool with
  | some p => .ok p
  | none => .error (.Database (.ConnectionFailed "Not connected to database"))

/-- PostgresAdapter::connect. `poolResult` is the driver outcome of
PgPoolOptions::connect. -/
def connect (a : PostgresAdapter) (params : ConnectionParams)
    (poolResult : Except String Unit) : PostgresAdapter × Except AppError Unit :=
  match params.validate with
  | .error e => (a, .error e)
  | .ok _ =>
    match poolResult with
    | .error e => (a, .error (.Database (.ConnectionFailed e)))
    | .ok pool => ({ a with pool := some pool, connected := true }, .ok ())

/-- PostgresAdapter::disconnect. -/
def disconnect (a : PostgresAdapter) : PostgresAdapter × Except AppError Unit :=
  ({ a with pool := none, connected := false }, .ok ())

/-- PostgresAdapter::test_connection. `queryResult` is the driver outcome of
the `SELECT 1` round trip. -/
def test_connection (a : PostgresAdapter) (queryResult : Except String Unit) :
    Except AppError Bool := do
  let _pool ← a.get_pool
  match queryResult with
  | .ok _ => .ok true
  | .error _ => .ok false

/-- PostgresAdapter::execute_query. `fetched` is the driver outcome of
fetch_all together with the column headers and the rows already coerced to
optional strings (the try_get fallback chain). -/
def execute_query (a : PostgresAdapter)
    (fetched : Except String (List ColumnInfo × List QueryRow))
    (elapsed_ms : Nat) : Except AppError QueryResult := do
  let _pool ← a.get_pool
  match fetched with
  | .error e => .error (.Database (.QueryFailed e))
  | .ok (columns, query_rows) =>
      .ok { columns := columns, rows := query_rows,
            rows_affected := none, execution_time := some elapsed_ms }

/-- PostgresAdapter::execute_command. `outcome` is the driver outcome of
execute, carrying rows_affected on success. -/
def execute_command (a : PostgresAdapter) (outcome : Except String Nat) :
    Except AppError Nat := do
  let _pool ← a.get_pool
  match outcome with
  | .error e => .error (.Database (.QueryFailed e))
  | .ok affected => .ok affected

/-- PostgresAdapter::get_metadata: the guard, then engine introspection
supplied as an oracle. -/
def get_metadata (a : PostgresAdapter)
    (introspected : Except AppError DatabaseMetadata) :
    Except AppError DatabaseMetadata := do
  let _pool ← a.get_pool
  introspected

/-- PostgresAdapter::list_tables: the guard, then engine introspection. -/
def list_tables (a : PostgresAdapter)
    (introspected : Except AppError (List TableInfo)) :
    Except AppError (List TableInfo) := do
  let _pool ← a.get_pool
  introspected

/-- PostgresAdapter::get_table_columns: the guard, then engine
introspection. -/
def get_table_columns (a : PostgresAdapter) (_table_name : String)
    (introspected : Except AppError (List ColumnInfo)) :
    Except AppError (List ColumnInfo) := do
  let _pool ← a.get_pool
  introspected

/-- PostgresAdapter::current_database: the guard, then the engine answer. -/
def current_database (a : PostgresAdapter)
    (answer : Except AppError String) : Except AppError String := do
  let _pool ← a.get_pool
  answer

/-- PostgresAdapter::is_connected. -/
def is_connected (a : PostgresAdapter) : Bool := a.connected

end PostgresAdapter

/-- database/adapter/mysql.rs, struct MySqlAdapter. -/
structure MySqlAdapter where
  pool : Option Unit
  connected : Bool
deriving DecidableEq, Repr

namespace MySqlAdapter

/-- MySqlAdapter::new. -/
def new : MySqlAdapter := { pool := none, connected := false }

/-- MySqlAdapter::get_pool. -/
def get_pool (a : MySqlAdapter) : Except AppError Unit :=
  match a.pool with
  | some p => .ok p
  | none => .error (.Database (.ConnectionFailed "Not connected to database"))

/-- MySqlAdapter::connect. -/
def connect (a : MySqlAdapter) (params : ConnectionParams)
    (poolResult : Except String Unit) : MySqlAdapter × Except AppError Unit :=
  match params.validate with
  | .error e => (a, .error e)
  | .ok _ =>
    match poolResult with
    | .error e => (a, .error (.Database (.ConnectionFailed e)))
    | .ok pool => ({ a with pool := some pool, connected := true }, .ok ())

/-- MySqlAdapter::disconnect. -/
def disconnect (a : MySqlAdapter) : MySqlAdapter × Except AppError Unit :=
  ({ a with pool := none, connected := false }, .ok ())

/-- MySqlAdapter::test_connection. -/
def test_connection (a : MySqlAdapter) (queryResult : Except String Unit) :
    Except AppError Bool := do
  let _pool ← a.get_pool
  match queryResult with
  | .ok _ => .ok true
  | .error _ => .ok false

/-- MySqlAdapter::execute_query. -/
def execute_query (a : MySqlAdapter)
    (fetched : Except String (List ColumnInfo × List QueryRow))
    (elapsed_ms : Nat) : Except AppError QueryResult := do
  let _pool ← a.get_pool
  match fetched with
  | .error e => .error (.Database (.QueryFailed e))
  | .ok (columns, query_rows) =>
      .ok { columns := columns, rows := query_rows,
            rows_affected := none, execution_time := some elapsed_ms }

/-- MySqlAdapter::execute_command. -/
def execute_command (a : MySqlAdapter) (outcome : Except String Nat) :
    Except AppError Nat := do
  let _pool ← a.get_pool
  match outcome with
  | .error e => .error (.Database (.QueryFailed e))
  | .ok affected => .ok affected

/-- MySqlAdapter::get_metadata. -/
def get_metadata (a : MySqlAdapter)
    (introspected : Except AppError DatabaseMetadata) :
    Except AppError DatabaseMetadata := do
  let _pool ← a.get_pool
  introspected

/-- MySqlAdapter::list_tables. -/
def list_tables (a : MySqlAdapter)
    (introspected : Except AppError (List TableInfo)) :
    Except AppError (List TableInfo) := do
  let _pool ← a.get_pool
  introspected

/-- MySqlAdapter::get_table_columns. -/
def get_table_columns (a : MySqlAdapter) (_table_name : String)
    (introspected : Except AppError (List ColumnInfo)) :
    Except AppError (List ColumnInfo) := do
  let _pool ← a.get_pool
  introspected

/-- MySqlAdapter::current_database. -/
def current_database (a : MySqlAdapter)
    (answer : Except AppError String) : Except AppError String := do
  let _pool ← a.get_pool
  answer

/-- MySqlAdapter::is_connected. -/
def is_connected (a : MySqlAdapter) : Bool := a.connected

end MySqlAdapter

/-- database/adapter/sqlite.rs, struct SqliteAdapter. -/
structure SqliteAdapter where
  pool : Option Unit
  connected : Bool
  database_path : String
deriving DecidableEq, Repr

namespace SqliteAdapter

/-- SqliteAdapter::new. -/
def new : SqliteAdapter := { pool := none, connected := false, database_path := "" }

/-- SqliteAdapter::get_pool. -/
def get_pool (a : SqliteAdapter) : Except AppError Unit :=
  match a.pool with
  | some p => .ok p
  | none => .error (.Database (.ConnectionFailed "Not connected to database"))

/-- SqliteAdapter::connect. `dirResult` is the filesystem outcome of
create_dir_all inside build_connection_string, `poolResult` the driver outcome
of SqlitePoolOptions::connect, `pragmaResult` the outcome of the
`PRAGMA foreign_keys = ON` round trip. -/
def connect (a : SqliteAdapter) (params : ConnectionParams)
    (dirResult : Except String Unit) (poolResult : Except String Unit)
    (pragmaResult : Except String Unit) : SqliteAdapter × Except AppError Unit :=
  match params.validate with
  | .error e => (a, .error e)
  | .ok _ =>
    match dirResult with
    | .error e =>
        (a, .error (.Database (.ConnectionFailed
          ("Failed to create database directory: " ++ e))))
    | .ok _ =>
      let a := { a with database_path := params.database }
      match poolResult with
      | .error e => (a, .error (.Database (.ConnectionFailed e)))
      | .ok pool =>
        match pragmaResult with
        | .error e => (a, .error (.Database (.QueryFailed e)))
        | .ok _ => ({ a with pool := some pool, connected := true }, .ok ())

/-- SqliteAdapter::disconnect. -/
def disconnect (a : SqliteAdapter) : SqliteAdapter × Except AppError Unit :=
  ({ a with pool := none, connected := false }, .ok ())

/-- SqliteAdapter::test_connection. -/
def test_connection (a : SqliteAdapter) (queryResult : Except String Unit) :
    Except AppError Bool := do
  let _pool ← a.get_pool
  match queryResult with
  | .ok _ => .ok true
  | .error _ => .ok false

/-- SqliteAdapter::execute_query. -/
def execute_query (a : SqliteAdapter)
    (fetched : Except String (List ColumnInfo × List QueryRow))
    (elapsed_ms : Nat) : Except AppError QueryResult := do
  let _pool ← a.get_pool
  match fetched with
  | .error e => .error (.Database (.QueryFailed e))
  | .ok (columns, query_rows) =>
      .ok { columns := columns, rows := query_rows,
            rows_affected := none, execution_time := some elapsed_ms }

/-- SqliteAdapter::execute_command. -/
def execute_command (a : SqliteAdapter) (outcome : Except String Nat) :
    Except AppError Nat := do
  let _pool ← a.get_pool
  match outcome with
  | .error e => .error (.Database (.QueryFailed e))
  | .ok affected => .ok affected

/-- SqliteAdapter::get_metadata. -/
def get_metadata (a : SqliteAdapter)
    (introspected : Except AppError DatabaseMetadata) :
    Except AppError DatabaseMetadata := do
  let _pool ← a.get_pool
  introspected

/-- SqliteAdapter::list_tables. -/
def list_tables (a : SqliteAdapter)
    (introspected : Except AppError (List TableInfo)) :
    Except AppError (List TableInfo) := do
  let _pool ← a.get_pool
  introspected

/-- SqliteAdapter::get_table_columns. -/
def get_table_columns (a : SqliteAdapter) (_table_name : String)
    (introspected : Except AppError (List ColumnInfo)) :
    Except AppError (List ColumnInfo) := do
  let _pool ← a.get_pool
  introspected

/-- SqliteAdapter::is_connected. -/
def is_connected (a : SqliteAdapter) : Bool := a.connected

end SqliteAdapter

/-! ## Connection lifecycle (commands.rs)

ADAPTER_STATE and CONNECTION_CANCEL_TOKEN are the only mutable globals; they
are embedded as one explicit state record.  The stored adapter is represented
by its engine type (presence is what the lifecycle claims are about), the
cancellation token by an Option Unit (armed or not).  The winner of the
tokio::select race between adapter.connect and the cancellation signal is
scheduler-determined, so it is an explicit oracle argument. -/

/-- The two mutable globals of commands.rs. -/
structure GlobalState where
  adapter : Option DatabaseType
  cancel_token : Option Unit
deriving DecidableEq, Repr

/-- The winner of the tokio::select race inside connect_database: either the
cancellation signal fired first, or adapter.connect completed with the given
result. -/
inductive ConnectOutcome
  | cancelled
  | completed (result : Except AppError Unit)

/-- commands.rs, connect_database. -/
def connect_database (st : GlobalState) (params : ConnectionParams)
    (outcome : ConnectOutcome) : GlobalState × Except String String :=
  match params.validate with
  | .error e => (st, .error ("Validation error: " ++ e.toMessage))
  | .ok _ =>
    let st := { st with cancel_token := some () }
    match outcome with
    | .cancelled =>
        ({ st with cancel_token := none }, .error "Connection cancelled by user")
    | .completed r =>
      let st := { st with cancel_token := none }
      match r with
      | .error e => (st, .error ("Connection failed: " ++ e.toMessage))
      | .ok _ =>
          ({ st with adapter := some params.database_type },
           .ok "Connected successfully")

/-- commands.rs, cancel_connection. -/
def cancel_connection (st : GlobalState) : GlobalState × Except String String :=
  match st.cancel_token with
  | some _ =>
      ({ st with cancel_token := none }, .ok "Connection cancellation requested")
  | none => (st, .error "No active connection to cancel")

/-! ## Query execution orchestrator (commands.rs, execute_query)

The adapter the orchestrator drives is a model with explicit state σ (the
database the statements act on): runQuery and runCommand consume a state and
either fail or return a value and the successor state.  splitStatements stands
for sql_utils::split_sql_statements, whose primary path is the external
sqlparser crate, so the orchestrator is proved for every splitter behavior.
Wall-clock timing is unmodellable real time and is abstracted as the oracle
`elapsed`. -/

/-- The adapter as seen by the orchestrator. -/
structure AdapterModel (σ : Type) where
  db_type : DatabaseType
  runQuery : σ → String → Except AppError (QueryResult × σ)
  runCommand : σ → String → Except AppError (Nat × σ)
  elapsed : String → Nat
  splitStatements : String → List String

/-- commands.rs lines 157 to 167: turn a positional row into a column-name
keyed object (serde_json::Map is embedded as the ordered pair list). -/
def transformRow (row : QueryRow) : List (String × Option String) :=
  row.columns.enum.map fun ic => (ic.2, (row.values.get? ic.1).bind id)

/-- One per-statement entry of the `results` array built by execute_query. -/
inductive ExecItem
  | query (statement : String) (columns : List ColumnInfo)
      (rows : List (List (String × Option String)))
      (rows_affected : Option Nat) (execution_time : Nat)
  | command (statement : String) (rows_affected : Nat) (execution_time : Nat)
deriving DecidableEq, Repr

/-- The JSON value returned by execute_query: either the backward-compatible
flattened single-query shape or the full results array with totals. -/
inductive ExecOutput
  | single (columns : List ColumnInfo)
      (rows : List (List (String × Option String)))
      (rows_affected : Option Nat) (execution_time : Nat)
  | multi (results : List ExecItem) (total_execution_time : Nat)
      (total_rows_affected : Nat)
deriving DecidableEq, Repr

/-- The statement loop of commands.rs execute_query (lines 142 to 199).
Returns the adapter state reached together with either the accumulated
results and totals or the abort error. -/
def execLoop {σ : Type} (a : AdapterModel σ) :
    List String → σ → List ExecItem → Nat → Nat →
    σ × Except String (List ExecItem × Nat × Nat)
  | [], s, results, total_execution_time, total_rows_affected =>
      (s, .ok (results, total_execution_time, total_rows_affected))
  | statement :: rest, s, results, total_execution_time, total_rows_affected =>
    let trimmed := trimString statement
    if trimmed.isEmpty then
      execLoop a rest s results total_execution_time total_rows_affected
    else
      match a.runQuery s trimmed with
      | .ok (result, s') =>
        let exec_time := a.elapsed trimmed
        execLoop a rest s'
          (results ++ [.query trimmed result.columns
            (result.rows.map transformRow) result.rows_affected exec_time])
          (total_execution_time + exec_time) total_rows_affected
      | .error _ =>
        match a.runCommand s trimmed with
        | .ok (affected, s') =>
          let exec_time := a.elapsed trimmed
          execLoop a rest s' (results ++ [.command trimmed affected exec_time])
            (total_execution_time + exec_time) (total_rows_affected + affected)
        | .error e =>
          (s, .error ("Failed to execute statement: " ++ e.toMessage
               ++ "\nStatement: " ++ trimmed))

/-- commands.rs, execute_query (the command), on a connected adapter. -/
def execute_query_command {σ : Type} (a : AdapterModel σ) (query : String)
    (s : σ) : σ × Except String ExecOutput :=
  let statements := a.splitStatements query
  if statements.isEmpty then
    (s, .error "No valid SQL statements found")
  else
    match execLoop a statements s [] 0 0 with
    | (s', .error e) => (s', .error e)
    | (s', .ok (results, total_execution_time, total_rows_affected)) =>
      if results.isEmpty then (s', .error "No results from execution")
      else
        match results with
        | [ExecItem.query _ columns rows rows_affected exec_time] =>
            (s', .ok (.single columns rows rows_affected exec_time))
        | _ => (s', .ok (.multi results total_execution_time total_rows_affected))

/-- Does the results list consist of exactly one query-path entry
(the condition of the backward-compatible shape)? -/
def isSingleQuery : List ExecItem → Bool
  | [ExecItem.query _ _ _ _ _] => true
  | _ => false

/-- The contribution of one result entry to total_rows_affected. -/
def commandRowsAffected : ExecItem → Nat
  | .query _ _ _ _ _ => 0
  | .command _ n _ => n

/-- Sum of the command-path rows_affected of a results list. -/
def sumRowsAffected (l : List ExecItem) : Nat :=
  (l.map commandRowsAffected).sum

/-- A query-path entry whose rows_affected field is null (commands always
hold). -/
def queryNullRowsAffected : ExecItem → Prop
  | .query _ _ _ rows_affected _ => rows_affected = none
  | .command _ _ _ => True

/-- Is the entry a query-path entry? -/
def isQueryItem : ExecItem → Bool
  | .query _ _ _ _ _ => true
  | .command _ _ _ => false

/-! ## Statement splitter fallback (database/sql_utils.rs, split_by_semicolon)

The primary path of split_sql_statements delegates to the external sqlparser
crate; the quote-aware fallback below is the code under verification. -/

/-- The loop state of split_by_semicolon. -/
structure SplitState where
  statements : List (List Char)
  current : List Char
  in_string : Bool
  string_char : Char
  escape_next : Bool
deriving DecidableEq, Repr

/-- One iteration of the character scan of split_by_semicolon. -/
def stepChar (st : SplitState) (ch : Char) : SplitState :=
  if st.escape_next then
    { st with current := st.current ++ [ch], escape_next := false }
  else if ch == '\\' && st.in_string then
    { st with escape_next := true, current := st.current ++ [ch] }
  else if !st.in_string && (ch == '\'' || ch == '"') then
    { st with in_string := true, string_char := ch, current := st.current ++ [ch] }
  else if st.in_string && ch == st.string_char then
    { st with in_string := false, current := st.current ++ [ch] }
  else if !st.in_string && ch == ';' then
    let trimmed := trimChars (st.current ++ [ch])
    { st with
      statements := if trimmed.isEmpty then st.statements
                    else st.statements ++ [trimmed],
      current := [] }
  else
    { st with current := st.current ++ [ch] }

/-- The initial loop state of split_by_semicolon. -/
def initialSplitState : SplitState :=
  { statements := [], current := [], in_string := false, string_char := ' ',
    escape_next := false }

/-- Run the scan from a given state and flush the trailing statement. -/
def runSplit (st : SplitState) (l : List Char) : List (List Char) :=
  let fin := l.foldl stepChar st
  let trimmed := trimChars fin.current
  if trimmed.isEmpty then fin.statements else fin.statements ++ [trimmed]

/-- database/sql_utils.rs, split_by_semicolon, on character lists. -/
def splitChars (sql : List Char) : List (List Char) :=
  runSplit initialSplitState sql

/-- database/sql_utils.rs, split_by_semicolon. -/
def split_by_semicolon (sql : String) : List String :=
  (splitChars sql.data).map fun cs => ⟨cs⟩

/-- The non-whitespace characters of a list, in order (used to state that
the fallback splitter drops nothing but whitespace). -/
def nonWs (cs : List Char) : List Char :=
  cs.filter fun c => !c.isWhitespace

/-- The body of a quoted SQL string literal under the rules of the fallback scanner for quote character q: every occurrence of q or of a backslash inside
the body is consumed by a preceding backslash escape, so the literal stays
open throughout the body. -/
inductive SBody (q : Char) : List Char → Prop
  | nil : SBody q []
  | chr {c : Char} {cs : List Char} :
      c ≠ q → c ≠ '\\' → SBody q cs → SBody q (c :: cs)
  | esc {c : Char} {cs : List Char} : SBody q cs → SBody q ('\\' :: c :: cs)

/-- A concrete orchestrator adapter model used by the witnesses: one
recognized query statement, one recognized command statement, state is the
trace of executed statements. -/
def demoAdapter : AdapterModel (List String) where
  db_type := .SQLite
  runQuery := fun s stmt =>
    if stmt = "SELECT 1" then
      .ok ({ columns := [], rows := [], rows_affected := none,
             execution_time := some 0 }, s ++ [stmt])
    else .error (.Database (.QueryFailed "not a query"))
  runCommand := fun s stmt =>
    if stmt = "UPDATE t" then .ok (2, s ++ [stmt])
    else .error (.Database (.QueryFailed "bad statement"))
  elapsed := fun _ => 1
  splitStatements := fun sql =>
    if sql = "" then []
    else if sql = "combo" then ["SELECT 1", "UPDATE t", "BAD"]
    else [sql]

lemma collapseDoubled_cons_ne (q c : Char) (h : c ≠ q) (l : List Char) :
    collapseDoubled q (c :: l) = c :: collapseDoubled q l := by
  cases l with
  | nil => rfl
  | cons d ds => simp [collapseDoubled, h]

lemma collapseDoubled_cons_q (q : Char) (l : List Char) :
    collapseDoubled q (q :: q :: l) = q :: collapseDoubled q l := by
  simp [collapseDoubled]

lemma collapseDoubled_doubleChar (q : Char) (l : List Char) :
    collapseDoubled q (doubleChar q l) = l := by
  induction l with
  | nil => rfl
  | cons c cs ih =>
    by_cases h : c = q
    · subst h
      simp [doubleChar, collapseDoubled_cons_q, ih]
    · simp only [doubleChar, if_neg h, collapseDoubled_cons_ne q c h, ih]

lemma unquoteIdent_quote (q : Char) (s : String) :
    unquoteIdent q ⟨q :: doubleChar q s.data ++ [q]⟩ = some s := by
  cases s with
  | mk data =>
    show unquoteIdent q ⟨q :: doubleChar q data ++ [q]⟩ = some ⟨data⟩
    unfold unquoteIdent
    simp [List.getLast?_concat, List.dropLast_concat, collapseDoubled_doubleChar]

/-- C3 counterexample: the claimed exact output string for offset-only
pagination is wrong at offset 0 for PostgreSQL — the generated clause starts
with a space. -/
theorem C3_counterexample :
    PostgreSQLDialect.limit_clause none (some 0) ≠ "OFFSET 0" := by decide

/-- C3 (amended): for every n the offset-only pagination clause is, as an
exact string, a single leading space followed by the tabulated text:
PostgreSQL gives " OFFSET n", MySQL gives
" LIMIT 18446744073709551615 OFFSET n", SQLite gives " LIMIT -1 OFFSET n". -/
theorem C3_offset_only_clauses (n : Nat) :
    PostgreSQLDialect.limit_clause none (some n) = " OFFSET " ++ toString n
    ∧ MySQLDialect.limit_clause none (some n)
        = " LIMIT 18446744073709551615 OFFSET " ++ toString n
    ∧ SQLiteDialect.limit_clause none (some n)
        = " LIMIT -1 OFFSET " ++ toString n :=
  ⟨rfl, rfl, rfl⟩

/-- C4: validate rejects PostgreSQL/MySQL params with a missing username or a
missing host, rejects any params with an empty database name, and accepts
SQLite params with a non-empty database name (host and username may both be
absent — validate never inspects them for SQLite). -/
theorem C4_validate_rules (p : ConnectionParams) :
    ((p.database_type = .PostgreSQL ∨ p.database_type = .MySQL) →
        p.username = none → ∃ e, p.validate = .error e)
    ∧ ((p.database_type = .PostgreSQL ∨ p.database_type = .MySQL) →
        p.host = none → ∃ e, p.validate = .error e)
    ∧ (p.database = "" → ∃ e, p.validate = .error e)
    ∧ (p.database_type = .SQLite → p.database ≠ "" → p.validate = .ok ()) := by
  refine ⟨?_, ?_, ?_, ?_⟩
  · intro hdb hu
    unfold ConnectionParams.validate
    split_ifs with h1 h2 h3
    · exact ⟨_, rfl⟩
    · exact ⟨_, rfl⟩
    · exact ⟨_, rfl⟩
    · exfalso
      apply h2
      rcases hdb with h | h <;> simp [h, DatabaseType.requires_credentials, hu]
  · intro hdb hh
    unfold ConnectionParams.validate
    split_ifs with h1 h2 h3
    · exact ⟨_, rfl⟩
    · exact ⟨_, rfl⟩
    · exact ⟨_, rfl⟩
    · exfalso
      apply h1
      rcases hdb with h | h <;> simp [h, DatabaseType.requires_host, hh]
  · intro hempty
    unfold ConnectionParams.validate
    split_ifs with h1 h2 h3
    · exact ⟨_, rfl⟩
    · exact ⟨_, rfl⟩
    · exact ⟨_, rfl⟩
    · exfalso
      apply h3
      rw [hempty]
      decide
  · intro hsql hne
    unfold ConnectionParams.validate
    split_ifs with h1 h2 h3
    · simp [hsql, DatabaseType.requires_host] at h1
    · simp [hsql, DatabaseType.requires_credentials] at h2
    · exact absurd ((String.isEmpty_iff _).mp h3) hne
    · rfl

/-- C4 witness: SQLite params named "test.db" with no host and no username
validate, and fresh PostgreSQL params (no username) are rejected. -/
theorem C4_validate_witness :
    (ConnectionParams.new .SQLite "test.db").validate = .ok ()
    ∧ ∃ e, (ConnectionParams.new .PostgreSQL "app_db").validate = .error e :=
  ⟨(C4_validate_rules _).2.2.2 rfl (by decide),
   (C4_validate_rules _).1 (Or.inl rfl) rfl⟩

/-- C7: for each engine, quote_identifier wraps the identifier in the
quote character of the engine with embedded occurrences doubled, and the quoting
round-trips: stripping the outer quote pair and collapsing each doubled quote
character recovers the original identifier, for every identifier including
ones containing the quote character. -/
theorem C7_quote_identifier_roundtrip (s : String) :
    unquoteIdent '"' (PostgreSQLDialect.quote_identifier s) = some s
    ∧ unquoteIdent '`' (MySQLDialect.quote_identifier s) = some s
    ∧ unquoteIdent '"' (SQLiteDialect.quote_identifier s) = some s :=
  ⟨unquoteIdent_quote '"' s, unquoteIdent_quote '`' s, unquoteIdent_quote '"' s⟩

/-- C2: when the select race inside connect_database is won by the
cancellation signal, the command reports the cancellation error, stores no
adapter (an idle manager stays idle), clears the cancellation token, and a
subsequent cancel_connection fails with nothing to cancel. -/
theorem C2_cancelled_connect (st : GlobalState) (params : ConnectionParams)
    (hv : params.validate = .ok ()) (hidle : st.adapter = none) :
    (connect_database st params .cancelled).2
        = .error "Connection cancelled by user"
    ∧ (connect_database st params .cancelled).1.adapter = none
    ∧ (connect_database st params .cancelled).1.cancel_token = none
    ∧ cancel_connection (connect_database st params .cancelled).1
        = ((connect_database st params .cancelled).1,
           .error "No active connection to cancel") := by
  simp [connect_database, hv, cancel_connection, hidle]

/-- C2 witness: cancelling a freshly issued SQLite connect from the idle
state. -/
theorem C2_cancelled_connect_witness :
    (connect_database ⟨none, none⟩ (ConnectionParams.new .SQLite "test.db")
        .cancelled).2 = .error "Connection cancelled by user"
    ∧ (connect_database ⟨none, none⟩ (ConnectionParams.new .SQLite "test.db")
        .cancelled).1.adapter = none
    ∧ (connect_database ⟨none, none⟩ (ConnectionParams.new .SQLite "test.db")
        .cancelled).1.cancel_token = none
    ∧ cancel_connection (connect_database ⟨none, none⟩
        (ConnectionParams.new .SQLite "test.db") .cancelled).1
        = ((connect_database ⟨none, none⟩ (ConnectionParams.new .SQLite "test.db")
            .cancelled).1, .error "No active connection to cancel") :=
  C2_cancelled_connect ⟨none, none⟩ (ConnectionParams.new .SQLite "test.db")
    rfl rfl

/-- C8: for every adapter, test_connection maps an engine-level failure of
the trivial round-trip query to Ok false rather than an error, and errors
only when the pool is absent (the adapter itself is broken). -/
theorem C8_test_connection_policy :
    ((∀ (a : PostgresAdapter) (e : String), a.pool ≠ none →
        a.test_connection (.error e) = .ok false)
      ∧ (∀ (a : PostgresAdapter) (qr : Except String Unit), a.pool = none →
        a.test_connection qr
          = .error (.Database (.ConnectionFailed "Not connected to database"))))
    ∧ ((∀ (a : MySqlAdapter) (e : String), a.pool ≠ none →
        a.test_connection (.error e) = .ok false)
      ∧ (∀ (a : MySqlAdapter) (qr : Except String Unit), a.pool = none →
        a.test_connection qr
          = .error (.Database (.ConnectionFailed "Not connected to database"))))
    ∧ ((∀ (a : SqliteAdapter) (e : String), a.pool ≠ none →
        a.test_connection (.error e) = .ok false)
      ∧ (∀ (a : SqliteAdapter) (qr : Except String Unit), a.pool = none →
        a.test_connection qr
          = .error (.Database (.ConnectionFailed "Not connected to database")))) := by
  refine ⟨⟨?_, ?_⟩, ⟨?_, ?_⟩, ⟨?_, ?_⟩⟩ <;> intro a x h
  · obtain ⟨p, hp⟩ := Option.ne_none_iff_exists'.mp h
    simp [PostgresAdapter.test_connection, PostgresAdapter.get_pool, hp,
      Bind.bind, Except.bind]
  · simp [PostgresAdapter.test_connection, PostgresAdapter.get_pool, h,
      Bind.bind, Except.bind]
  · obtain ⟨p, hp⟩ := Option.ne_none_iff_exists'.mp h
    simp [MySqlAdapter.test_connection, MySqlAdapter.get_pool, hp,
      Bind.bind, Except.bind]
  · simp [MySqlAdapter.test_connection, MySqlAdapter.get_pool, h,
      Bind.bind, Except.bind]
  · obtain ⟨p, hp⟩ := Option.ne_none_iff_exists'.mp h
    simp [SqliteAdapter.test_connection, SqliteAdapter.get_pool, hp,
      Bind.bind, Except.bind]
  · simp [SqliteAdapter.test_connection, SqliteAdapter.get_pool, h,
      Bind.bind, Except.bind]

/-- C8 witness: a connected PostgreSQL adapter whose round-trip query fails
reports Ok false, and a pool-less one reports the not-connected error. -/
theorem C8_test_connection_witness :
    ({ pool := some (), connected := true } : PostgresAdapter).test_connection
        (.error "timeout") = .ok false
    ∧ ({ pool := none, connected := false } : PostgresAdapter).test_connection
        (.ok ())
        = .error (.Database (.ConnectionFailed "Not connected to database")) :=
  ⟨C8_test_connection_policy.1.1 _ "timeout" (by simp),
   C8_test_connection_policy.1.2 _ (.ok ()) rfl⟩

/-- C9: every adapter keeps its connected flag equal to pool presence: a
fresh adapter has both cleared, connect sets both on success and leaves both
untouched on failure, disconnect clears both and always returns Ok, and
every pool-guarded data operation invoked with no pool returns the
ConnectionFailed error "Not connected to database" (no panic: all the
embedded operations are total). -/
theorem C9_adapter_state_invariant :
    (PostgresAdapter.new.connected = PostgresAdapter.new.pool.isSome
      ∧ MySqlAdapter.new.connected = MySqlAdapter.new.pool.isSome
      ∧ SqliteAdapter.new.connected = SqliteAdapter.new.pool.isSome)
    ∧ ((∀ (a : PostgresAdapter) (params : ConnectionParams)
          (pr : Except String Unit),
          ((PostgresAdapter.connect a params pr).2 = .ok () →
            (PostgresAdapter.connect a params pr).1.connected = true
            ∧ (PostgresAdapter.connect a params pr).1.pool.isSome = true)
          ∧ ((PostgresAdapter.connect a params pr).2 ≠ .ok () →
            (PostgresAdapter.connect a params pr).1.connected = a.connected
            ∧ (PostgresAdapter.connect a params pr).1.pool = a.pool))
      ∧ (∀ a : PostgresAdapter, PostgresAdapter.disconnect a
            = ({ a with pool := none, connected := false }, .ok ()))
      ∧ (∀ a : PostgresAdapter, a.pool = none →
          (∀ qr, a.test_connection qr = .error notConnected)
          ∧ (∀ f t, a.execute_query f t = .error notConnected)
          ∧ (∀ o, a.execute_command o = .error notConnected)
          ∧ (∀ i, a.get_metadata i = .error notConnected)
          ∧ (∀ i, a.list_tables i = .error notConnected)
          ∧ (∀ n i, a.get_table_columns n i = .error notConnected)
          ∧ (∀ ans, a.current_database ans = .error notConnected)))
    ∧ ((∀ (a : MySqlAdapter) (params : ConnectionParams)
          (pr : Except String Unit),
          ((MySqlAdapter.connect a params pr).2 = .ok () →
            (MySqlAdapter.connect a params pr).1.connected = true
            ∧ (MySqlAdapter.connect a params pr).1.pool.isSome = true)
          ∧ ((MySqlAdapter.connect a params pr).2 ≠ .ok () →
            (MySqlAdapter.connect a params pr).1.connected = a.connected
            ∧ (MySqlAdapter.connect a params pr).1.pool = a.pool))
      ∧ (∀ a : MySqlAdapter, MySqlAdapter.disconnect a
            = ({ a with pool := none, connected := false }, .ok ()))
      ∧ (∀ a : MySqlAdapter, a.pool = none →
          (∀ qr, a.test_connection qr = .error notConnected)
          ∧ (∀ f t, a.execute_query f t = .error notConnected)
          ∧ (∀ o, a.execute_command o = .error notConnected)
          ∧ (∀ i, a.get_metadata i = .error notConnected)
          ∧ (∀ i, a.list_tables i = .error notConnected)
          ∧ (∀ n i, a.get_table_columns n i = .error notConnected)
          ∧ (∀ ans, a.current_database ans = .error notConnected)))
    ∧ ((∀ (a : SqliteAdapter) (params : ConnectionParams)
          (dr pr gr : Except String Unit),
          ((SqliteAdapter.connect a params dr pr gr).2 = .ok () →
            (SqliteAdapter.connect a params dr pr gr).1.connected = true
            ∧ (SqliteAdapter.connect a params dr pr gr).1.pool.isSome = true)
          ∧ ((SqliteAdapter.connect a params dr pr gr).2 ≠ .ok () →
            (SqliteAdapter.connect a params dr pr gr).1.connected = a.connected
            ∧ (SqliteAdapter.connect a params dr pr gr).1.pool = a.pool))
      ∧ (∀ a : SqliteAdapter, SqliteAdapter.disconnect a
            = ({ a with pool := none, connected := false }, .ok ()))
      ∧ (∀ a : SqliteAdapter, a.pool = none →
          (∀ qr, a.test_connection qr = .error notConnected)
          ∧ (∀ f t, a.execute_query f t = .error notConnected)
          ∧ (∀ o, a.execute_command o = .error notConnected)
          ∧ (∀ i, a.get_metadata i = .error notConnected)
          ∧ (∀ i, a.list_tables i = .error notConnected)
          ∧ (∀ n i, a.get_table_columns n i = .error notConnected))) := by
  refine ⟨⟨rfl, rfl, rfl⟩, ⟨?_, fun a => rfl, ?_⟩, ⟨?_, fun a => rfl, ?_⟩,
    ⟨?_, fun a => rfl, ?_⟩⟩
  · intro a params pr
    cases hv : params.validate with
    | error e =>
      exact ⟨fun h => by simp [PostgresAdapter.connect, hv] at h,
        fun _ => by simp [PostgresAdapter.connect, hv]⟩
    | ok u =>
      cases pr with
      | error e =>
        exact ⟨fun h => by simp [PostgresAdapter.connect, hv] at h,
          fun _ => by simp [PostgresAdapter.connect, hv]⟩
      | ok p =>
        exact ⟨fun _ => by simp [PostgresAdapter.connect, hv],
          fun h => absurd (by simp [PostgresAdapter.connect, hv]) h⟩
  · intro a h
    refine ⟨fun qr => ?_, fun f t => ?_, fun o => ?_, fun i => ?_, fun i => ?_,
      fun n i => ?_, fun ans => ?_⟩ <;>
      simp [PostgresAdapter.test_connection, PostgresAdapter.execute_query,
        PostgresAdapter.execute_command, PostgresAdapter.get_metadata,
        PostgresAdapter.list_tables, PostgresAdapter.get_table_columns,
        PostgresAdapter.current_database, PostgresAdapter.get_pool, h,
        notConnected, Bind.bind, Except.bind]
  · intro a params pr
    cases hv : params.validate with
    | error e =>
      exact ⟨fun h => by simp [MySqlAdapter.connect, hv] at h,
        fun _ => by simp [MySqlAdapter.connect, hv]⟩
    | ok u =>
      cases pr with
      | error e =>
        exact ⟨fun h => by simp [MySqlAdapter.connect, hv] at h,
          fun _ => by simp [MySqlAdapter.connect, hv]⟩
      | ok p =>
        exact ⟨fun _ => by simp [MySqlAdapter.connect, hv],
          fun h => absurd (by simp [MySqlAdapter.connect, hv]) h⟩
  · intro a h
    refine ⟨fun qr => ?_, fun f t => ?_, fun o => ?_, fun i => ?_, fun i => ?_,
      fun n i => ?_, fun ans => ?_⟩ <;>
      simp [MySqlAdapter.test_connection, MySqlAdapter.execute_query,
        MySqlAdapter.execute_command, MySqlAdapter.get_metadata,
        MySqlAdapter.list_tables, MySqlAdapter.get_table_columns,
        MySqlAdapter.current_database, MySqlAdapter.get_pool, h,
        notConnected, Bind.bind, Except.bind]
  · intro a params dr pr gr
    cases hv : params.validate with
    | error e =>
      exact ⟨fun h => by simp [SqliteAdapter.connect, hv] at h,
        fun _ => by simp [SqliteAdapter.connect, hv]⟩
    | ok u =>
      cases dr with
      | error e =>
        exact ⟨fun h => by simp [SqliteAdapter.connect, hv] at h,
          fun _ => by simp [SqliteAdapter.connect, hv]⟩
      | ok d =>
        cases pr with
        | error e =>
          exact ⟨fun h => by simp [SqliteAdapter.connect, hv] at h,
            fun _ => by simp [SqliteAdapter.connect, hv]⟩
        | ok p =>
          cases gr with
          | error e =>
            exact ⟨fun h => by simp [SqliteAdapter.connect, hv] at h,
              fun _ => by simp [SqliteAdapter.connect, hv]⟩
          | ok g =>
            exact ⟨fun _ => by simp [SqliteAdapter.connect, hv],
              fun h => absurd (by simp [SqliteAdapter.connect, hv]) h⟩
  · intro a h
    refine ⟨fun qr => ?_, fun f t => ?_, fun o => ?_, fun i => ?_, fun i => ?_,
      fun n i => ?_⟩ <;>
      simp [SqliteAdapter.test_connection, SqliteAdapter.execute_query,
        SqliteAdapter.execute_command, SqliteAdapter.get_metadata,
        SqliteAdapter.list_tables, SqliteAdapter.get_table_columns,
        SqliteAdapter.get_pool, h, notConnected, Bind.bind, Except.bind]

/-- C9 witness: a pool-less PostgreSQL adapter rejects execute_command with
the not-connected error, and disconnecting a connected SQLite adapter clears
both fields and returns Ok. -/
theorem C9_adapter_state_witness :
    ({ pool := none, connected := false } : PostgresAdapter).execute_command
        (.ok 3) = .error notConnected
    ∧ SqliteAdapter.disconnect
        { pool := some (), connected := true, database_path := "x" }
        = ({ pool := none, connected := false, database_path := "x" }, .ok ()) :=
  ⟨(C9_adapter_state_invariant.2.1.2.2 { pool := none, connected := false }
      rfl).2.2.1 (.ok 3),
   C9_adapter_state_invariant.2.2.2.2.1
      { pool := some (), connected := true, database_path := "x" }⟩

lemma execLoop_step_skip {σ : Type} (a : AdapterModel σ) (x : String)
    (rest : List String) (s : σ) (acc : List ExecItem) (tT tR : Nat)
    (h : (trimString x).isEmpty = true) :
    execLoop a (x :: rest) s acc tT tR = execLoop a rest s acc tT tR := by
  simp [execLoop, h]

lemma execLoop_step_query {σ : Type} (a : AdapterModel σ) (x : String)
    (rest : List String) (s : σ) (acc : List ExecItem) (tT tR : Nat)
    (result : QueryResult) (s' : σ)
    (h : (trimString x).isEmpty = false)
    (hq : a.runQuery s (trimString x) = .ok (result, s')) :
    execLoop a (x :: rest) s acc tT tR =
      execLoop a rest s'
        (acc ++ [.query (trimString x) result.columns
          (result.rows.map transformRow) result.rows_affected
          (a.elapsed (trimString x))])
        (tT + a.elapsed (trimString x)) tR := by
  simp [execLoop, h, hq]

lemma execLoop_step_command {σ : Type} (a : AdapterModel σ) (x : String)
    (rest : List String) (s : σ) (acc : List ExecItem) (tT tR : Nat)
    (e : AppError) (n : Nat) (s' : σ)
    (h : (trimString x).isEmpty = false)
    (hq : a.runQuery s (trimString x) = .error e)
    (hc : a.runCommand s (trimString x) = .ok (n, s')) :
    execLoop a (x :: rest) s acc tT tR =
      execLoop a rest s' (acc ++ [.command (trimString x) n
        (a.elapsed (trimString x))])
        (tT + a.elapsed (trimString x)) (tR + n) := by
  simp [execLoop, h, hq, hc]

lemma execLoop_step_abort {σ : Type} (a : AdapterModel σ) (x : String)
    (rest : List String) (s : σ) (acc : List ExecItem) (tT tR : Nat)
    (e₁ e₂ : AppError)
    (h : (trimString x).isEmpty = false)
    (hq : a.runQuery s (trimString x) = .error e₁)
    (hc : a.runCommand s (trimString x) = .error e₂) :
    execLoop a (x :: rest) s acc tT tR =
      (s, .error ("Failed to execute statement: " ++ e₂.toMessage
        ++ "\nStatement: " ++ trimString x)) := by
  simp [execLoop, h, hq, hc]

lemma execLoop_append {σ : Type} (a : AdapterModel σ) (xs ys : List String)
    (s : σ) (acc : List ExecItem) (tT tR : Nat) :
    execLoop a (xs ++ ys) s acc tT tR =
      match execLoop a xs s acc tT tR with
      | (s', .ok (acc', tT', tR')) => execLoop a ys s' acc' tT' tR'
      | (s', .error e) => (s', .error e) := by
  induction xs generalizing s acc tT tR with
  | nil => simp [execLoop]
  | cons x xs ih =>
    rw [List.cons_append]
    cases h : (trimString x).isEmpty with
    | true => rw [execLoop_step_skip a x _ s acc tT tR h,
        execLoop_step_skip a x xs s acc tT tR h, ih]
    | false =>
      cases hq : a.runQuery s (trimString x) with
      | ok v =>
        obtain ⟨result, s'⟩ := v
        rw [execLoop_step_query a x _ s acc tT tR result s' h hq,
          execLoop_step_query a x xs s acc tT tR result s' h hq, ih]
      | error e =>
        cases hc : a.runCommand s (trimString x) with
        | ok v =>
          obtain ⟨n, s'⟩ := v
          rw [execLoop_step_command a x _ s acc tT tR e n s' h hq hc,
            execLoop_step_command a x xs s acc tT tR e n s' h hq hc, ih]
        | error e₂ =>
          rw [execLoop_step_abort a x _ s acc tT tR e e₂ h hq hc,
            execLoop_step_abort a x xs s acc tT tR e e₂ h hq hc]

/-- C1: on a connected adapter the orchestrator errors with "No valid SQL
statements found" when splitting yields an empty list; each non-empty
statement is first attempted as a query, a command is attempted only after
the query attempt failed, and when both attempts fail the batch aborts at
once with an error naming the offending statement while the adapter state
reached by the already-executed prefix is kept (no undo). -/
theorem C1_orchestrator_policy {σ : Type} (a : AdapterModel σ) (sql : String)
    (s : σ) :
    (a.splitStatements sql = [] →
        execute_query_command a sql s
          = (s, .error "No valid SQL statements found"))
    ∧ (∀ statement rest s₀ results tT tR result s',
        (trimString statement).isEmpty = false →
        a.runQuery s₀ (trimString statement) = .ok (result, s') →
        execLoop a (statement :: rest) s₀ results tT tR =
          execLoop a rest s'
            (results ++ [.query (trimString statement) result.columns
              (result.rows.map transformRow) result.rows_affected
              (a.elapsed (trimString statement))])
            (tT + a.elapsed (trimString statement)) tR)
    ∧ (∀ statement rest s₀ results tT tR e n s',
        (trimString statement).isEmpty = false →
        a.runQuery s₀ (trimString statement) = .error e →
        a.runCommand s₀ (trimString statement) = .ok (n, s') →
        execLoop a (statement :: rest) s₀ results tT tR =
          execLoop a rest s'
            (results ++ [.command (trimString statement) n
              (a.elapsed (trimString statement))])
            (tT + a.elapsed (trimString statement)) (tR + n))
    ∧ (∀ pre statement post s' acc tT tR e₁ e₂,
        a.splitStatements sql = pre ++ statement :: post →
        execLoop a pre s [] 0 0 = (s', .ok (acc, tT, tR)) →
        (trimString statement).isEmpty = false →
        a.runQuery s' (trimString statement) = .error e₁ →
        a.runCommand s' (trimString statement) = .error e₂ →
        execute_query_command a sql s =
          (s', .error ("Failed to execute statement: " ++ e₂.toMessage
            ++ "\nStatement: " ++ trimString statement))) := by
  refine ⟨?_, ?_, ?_, ?_⟩
  · intro h
    simp [execute_query_command, h]
  · intro statement rest s₀ results tT tR result s' h hq
    exact execLoop_step_query a statement rest s₀ results tT tR result s' h hq
  · intro statement rest s₀ results tT tR e n s' h hq hc
    exact execLoop_step_command a statement rest s₀ results tT tR e n s' h hq hc
  · intro pre statement post s' acc tT tR e₁ e₂ hsplit hpre htrim hq hc
    have hne : (pre ++ statement :: post).isEmpty = false := by
      cases pre <;> rfl
    simp only [execute_query_command, hsplit, hne, Bool.false_eq_true,
      if_false, execLoop_append, hpre]
    rw [execLoop_step_abort a statement post s' acc tT tR e₁ e₂ htrim hq hc]

/-- C1 witness: in the demo model the batch "combo" splits into a query, a
command, and a failing statement; the orchestrator aborts on the third with
an error naming it, keeping the two executed statements in the trace. -/
theorem C1_orchestrator_witness :
    execute_query_command demoAdapter "combo" ([] : List String) =
      (["SELECT 1", "UPDATE t"],
        .error ("Failed to execute statement: "
          ++ AppError.toMessage (.Database (.QueryFailed "bad statement"))
          ++ "\nStatement: " ++ trimString "BAD")) :=
  (C1_orchestrator_policy demoAdapter "combo" []).2.2.2
    ["SELECT 1", "UPDATE t"] "BAD" [] ["SELECT 1", "UPDATE t"]
    [.query "SELECT 1" [] [] none 1, .command "UPDATE t" 2 1] 2 2
    (.Database (.QueryFailed "not a query"))
    (.Database (.QueryFailed "bad statement"))
    (by decide) rfl (by decide) rfl rfl

/-- C6: when the statement loop succeeds, a results list that is exactly one
query-path entry is returned in the backward-compatible flattened shape, and
every other non-empty results list is returned as the ordered results array
with total_execution_time and total_rows_affected. -/
theorem C6_result_shape {σ : Type} (a : AdapterModel σ) (sql : String)
    (s s' : σ) (results : List ExecItem) (tT tR : Nat)
    (hne : a.splitStatements sql ≠ [])
    (hloop : execLoop a (a.splitStatements sql) s [] 0 0
      = (s', .ok (results, tT, tR))) :
    (∀ st cols rows ra t, results = [ExecItem.query st cols rows ra t] →
        execute_query_command a sql s = (s', .ok (.single cols rows ra t)))
    ∧ (results ≠ [] → isSingleQuery results = false →
        execute_query_command a sql s = (s', .ok (.multi results tT tR))) := by
  have hne' : (a.splitStatements sql).isEmpty = false := by
    cases h : a.splitStatements sql with
    | nil => exact absurd h hne
    | cons x xs => rfl
  constructor
  · intro st cols rows ra t hres
    subst hres
    simp [execute_query_command, hne', hloop]
  · intro hres hsingle
    rcases results with _ | ⟨x, _ | ⟨y, ys⟩⟩
    · exact absurd rfl hres
    · cases x with
      | query st cols rows ra t => simp [isSingleQuery] at hsingle
      | command st n t => simp [execute_query_command, hne', hloop]
    · cases x <;> simp [execute_query_command, hne', hloop]

/-- C6 witness: a single successful query statement in the demo model comes
back in the flattened single shape. -/
theorem C6_result_shape_witness :
    execute_query_command demoAdapter "SELECT 1" ([] : List String)
      = (["SELECT 1"], .ok (.single [] [] none 1)) :=
  (C6_result_shape demoAdapter "SELECT 1" [] ["SELECT 1"]
    [.query "SELECT 1" [] [] none 1] 1 0 (by decide) rfl).1
    "SELECT 1" [] [] none 1 rfl

lemma execLoop_ok_props {σ : Type} (a : AdapterModel σ) :
    ∀ (stmts : List String) (s : σ) (acc : List ExecItem) (tT tR : Nat)
      (s' : σ) (results : List ExecItem) (tT' tR' : Nat),
      execLoop a stmts s acc tT tR = (s', .ok (results, tT', tR')) →
      ∃ tail, results = acc ++ tail
        ∧ tR' = tR + sumRowsAffected tail
        ∧ ((∀ (s₀ : σ) stmt r s₁, a.runQuery s₀ stmt = .ok (r, s₁) →
              r.rows_affected = none) →
            ∀ item ∈ tail, queryNullRowsAffected item) := by
  intro stmts
  induction stmts with
  | nil =>
    intro s acc tT tR s' results tT' tR' h
    simp only [execLoop, Prod.mk.injEq, Except.ok.injEq] at h
    obtain ⟨-, h1, -, h2⟩ := h
    exact ⟨[], by simp [← h1], by simp [← h2, sumRowsAffected],
      fun _ _ hmem => absurd hmem (List.not_mem_nil _)⟩
  | cons x xs ih =>
    intro s acc tT tR s' results tT' tR' h
    cases htr : (trimString x).isEmpty with
    | true =>
      rw [execLoop_step_skip a x xs s acc tT tR htr] at h
      exact ih s acc tT tR s' results tT' tR' h
    | false =>
      cases hq : a.runQuery s (trimString x) with
      | ok v =>
        obtain ⟨result, s₁⟩ := v
        rw [execLoop_step_query a x xs s acc tT tR result s₁ htr hq] at h
        obtain ⟨tail, h1, h2, h3⟩ := ih _ _ _ _ _ _ _ _ h
        refine ⟨ExecItem.query (trimString x) result.columns
          (result.rows.map transformRow) result.rows_affected
          (a.elapsed (trimString x)) :: tail, ?_, ?_, ?_⟩
        · simpa using h1
        · simpa [sumRowsAffected, commandRowsAffected] using h2
        · intro hnull item hmem
          rcases List.mem_cons.mp hmem with hx | hx
          · subst hx
            simpa [queryNullRowsAffected] using hnull s (trimString x) result s₁ hq
          · exact h3 hnull item hx
      | error e =>
        cases hc : a.runCommand s (trimString x) with
        | ok v =>
          obtain ⟨n, s₁⟩ := v
          rw [execLoop_step_command a x xs s acc tT tR e n s₁ htr hq hc] at h
          obtain ⟨tail, h1, h2, h3⟩ := ih _ _ _ _ _ _ _ _ h
          refine ⟨ExecItem.command (trimString x) n
            (a.elapsed (trimString x)) :: tail, ?_, ?_, ?_⟩
          · simpa using h1
          · simp only [sumRowsAffected, List.map_cons, List.sum_cons,
              commandRowsAffected] at h2 ⊢
            omega
          · intro hnull item hmem
            rcases List.mem_cons.mp hmem with hx | hx
            · subst hx
              simp [queryNullRowsAffected]
            · exact h3 hnull item hx
        | error e₂ =>
          rw [execLoop_step_abort a x xs s acc tT tR e e₂ htr hq hc] at h
          simp at h

/-- C10: total_rows_affected is the sum of the command-path rows_affected of
the batch; query-path entries contribute nothing and their rows_affected
field is taken from the adapter, which every embedded adapter sets to none in
execute_query, so a multi-shape batch consisting solely of query entries
reports total_rows_affected zero. -/
theorem C10_rows_affected_totals {σ : Type} (a : AdapterModel σ) :
    (∀ (stmts : List String) (s s' : σ) (results : List ExecItem) (tT tR : Nat),
        execLoop a stmts s [] 0 0 = (s', .ok (results, tT, tR)) →
        tR = sumRowsAffected results)
    ∧ (∀ (stmts : List String) (s s' : σ) (results : List ExecItem)
        (tT tR : Nat),
        (∀ (s₀ : σ) stmt r s₁, a.runQuery s₀ stmt = .ok (r, s₁) →
          r.rows_affected = none) →
        execLoop a stmts s [] 0 0 = (s', .ok (results, tT, tR)) →
        ∀ item ∈ results, queryNullRowsAffected item)
    ∧ (∀ (sql : String) (s s' : σ) (results : List ExecItem) (tT tR : Nat),
        execute_query_command a sql s = (s', .ok (.multi results tT tR)) →
        (∀ item ∈ results, isQueryItem item = true) → tR = 0)
    ∧ (∀ (b : PostgresAdapter) f t r,
        PostgresAdapter.execute_query b f t = .ok r → r.rows_affected = none)
    ∧ (∀ (b : MySqlAdapter) f t r,
        MySqlAdapter.execute_query b f t = .ok r → r.rows_affected = none)
    ∧ (∀ (b : SqliteAdapter) f t r,
        SqliteAdapter.execute_query b f t = .ok r → r.rows_affected = none) := by
  have main := execLoop_ok_props a
  refine ⟨?_, ?_, ?_, ?_, ?_, ?_⟩
  · intro stmts s s' results tT tR h
    obtain ⟨tail, h1, h2, -⟩ := main stmts s [] 0 0 s' results tT tR h
    simp only [List.nil_append] at h1
    subst h1
    omega
  · intro stmts s s' results tT tR hnull h
    obtain ⟨tail, h1, -, h3⟩ := main stmts s [] 0 0 s' results tT tR h
    simp only [List.nil_append] at h1
    subst h1
    exact h3 hnull
  · intro sql s s' results tT tR h hall
    simp only [execute_query_command] at h
    cases hsp : (a.splitStatements sql).isEmpty with
    | true => rw [hsp] at h; simp at h
    | false =>
      rw [hsp] at h
      simp only [Bool.false_eq_true, if_false] at h
      rcases hloop : execLoop a (a.splitStatements sql) s [] 0 0 with ⟨s₀, r₀⟩
      rw [hloop] at h
      cases r₀ with
      | error e => simp at h
      | ok v =>
        obtain ⟨results₀, tT₀, tR₀⟩ := v
        dsimp only at h
        cases hre : results₀.isEmpty with
        | true => rw [hre] at h; simp at h
        | false =>
          rw [hre] at h
          simp only [Bool.false_eq_true, if_false] at h
          have htr : tR₀ = sumRowsAffected results₀ := by
            obtain ⟨tail, h1, h2, -⟩ :=
              main (a.splitStatements sql) s [] 0 0 s₀ results₀ tT₀ tR₀ hloop
            simp only [List.nil_append] at h1
            subst h1
            simpa using h2
          rcases results₀ with _ | ⟨x, _ | ⟨y, ys⟩⟩
          · simp at hre
          · cases x with
            | query st cols rows ra t => simp at h
            | command st n t =>
              dsimp only at h
              simp only [Prod.mk.injEq, Except.ok.injEq,
                ExecOutput.multi.injEq] at h
              obtain ⟨-, hres, -, htR⟩ := h
              subst hres
              have := hall (ExecItem.command st n t) (by simp)
              simp [isQueryItem] at this
          · have hinj : results = x :: y :: ys ∧ tR = tR₀ := by
              cases x <;>
                (dsimp only at h
                 simp only [Prod.mk.injEq, Except.ok.injEq,
                  ExecOutput.multi.injEq] at h
                 exact ⟨h.2.1.symm, h.2.2.2.symm⟩)
            obtain ⟨hres, htReq⟩ := hinj
            subst hres
            rw [htReq, htr]
            apply List.sum_eq_zero
            intro z hz
            obtain ⟨item, hmem, hzeq⟩ := List.mem_map.mp hz
            have := hall item hmem
            cases item with
            | query _ _ _ _ _ => simp [commandRowsAffected] at hzeq; omega
            | command _ _ _ => simp [isQueryItem] at this
  · intro b f t r h
    cases hp : b.pool with
    | none =>
      simp [PostgresAdapter.execute_query, PostgresAdapter.get_pool, hp,
        Bind.bind, Except.bind] at h
    | some p =>
      cases f with
      | error e =>
        simp [PostgresAdapter.execute_query, PostgresAdapter.get_pool, hp,
          Bind.bind, Except.bind] at h
      | ok v =>
        obtain ⟨cols, rws⟩ := v
        simp only [PostgresAdapter.execute_query, PostgresAdapter.get_pool, hp,
          Bind.bind, Except.bind, Except.ok.injEq] at h
        rw [← h]
  · intro b f t r h
    cases hp : b.pool with
    | none =>
      simp [MySqlAdapter.execute_query, MySqlAdapter.get_pool, hp,
        Bind.bind, Except.bind] at h
    | some p =>
      cases f with
      | error e =>
        simp [MySqlAdapter.execute_query, MySqlAdapter.get_pool, hp,
          Bind.bind, Except.bind] at h
      | ok v =>
        obtain ⟨cols, rws⟩ := v
        simp only [MySqlAdapter.execute_query, MySqlAdapter.get_pool, hp,
          Bind.bind, Except.bind, Except.ok.injEq] at h
        rw [← h]
  · intro b f t r h
    cases hp : b.pool with
    | none =>
      simp [SqliteAdapter.execute_query, SqliteAdapter.get_pool, hp,
        Bind.bind, Except.bind] at h
    | some p =>
      cases f with
      | error e =>
        simp [SqliteAdapter.execute_query, SqliteAdapter.get_pool, hp,
          Bind.bind, Except.bind] at h
      | ok v =>
        obtain ⟨cols, rws⟩ := v
        simp only [SqliteAdapter.execute_query, SqliteAdapter.get_pool, hp,
          Bind.bind, Except.bind, Except.ok.injEq] at h
        rw [← h]

/-- C10 witness: a one-command batch in the demo model accumulates its
rows_affected into the total, and the execute_query result of a connected
PostgreSQL adapter has a null rows_affected. -/
theorem C10_rows_affected_witness :
    (2 : Nat) = sumRowsAffected [ExecItem.command "UPDATE t" 2 1]
    ∧ (QueryResult.mk [] [] none (some 0)).rows_affected = none :=
  ⟨(C10_rows_affected_totals demoAdapter).1 ["UPDATE t"] [] ["UPDATE t"]
      [.command "UPDATE t" 2 1] 1 2 rfl,
   (C10_rows_affected_totals demoAdapter).2.2.2.1
      { pool := some (), connected := true } (.ok ([], [])) 0
      (QueryResult.mk [] [] none (some 0)) rfl⟩

lemma nonWs_append (l₁ l₂ : List Char) :
    nonWs (l₁ ++ l₂) = nonWs l₁ ++ nonWs l₂ :=
  List.filter_append l₁ l₂

lemma nonWs_dropWhile (l : List Char) :
    nonWs (l.dropWhile Char.isWhitespace) = nonWs l := by
  induction l with
  | nil => rfl
  | cons c cs ih =>
    by_cases h : c.isWhitespace
    · rw [List.dropWhile_cons, if_pos (by simp [h]), ih]
      unfold nonWs
      rw [List.filter_cons, if_neg (by simp [h])]
    · rw [List.dropWhile_cons, if_neg (by simp [h])]

lemma nonWs_reverse (l : List Char) : nonWs l.reverse = (nonWs l).reverse :=
  List.filter_reverse ..

lemma nonWs_trimChars (cs : List Char) : nonWs (trimChars cs) = nonWs cs := by
  unfold trimChars
  rw [nonWs_reverse, nonWs_dropWhile, nonWs_reverse, List.reverse_reverse,
    nonWs_dropWhile]

lemma trimChars_eq_nil_of_nonWs_nil (cs : List Char) (h : nonWs cs = []) :
    trimChars cs = [] := by
  have hall : ∀ c ∈ cs, c.isWhitespace = true := by
    intro c hc
    have := List.filter_eq_nil_iff.mp h c hc
    simpa using this
  unfold trimChars
  rw [List.dropWhile_eq_nil_iff.mpr hall]
  rfl

lemma trimChars_ne_nil (cs : List Char) (h : nonWs cs ≠ []) :
    trimChars cs ≠ [] := by
  intro he
  apply h
  rw [← nonWs_trimChars, he]
  rfl

lemma trimChars_concat (xs : List Char) (c : Char)
    (hc : c.isWhitespace = false) :
    ∃ zs, trimChars (xs ++ [c]) = zs ++ [c] := by
  unfold trimChars
  rw [List.dropWhile_append]
  by_cases he : (xs.dropWhile Char.isWhitespace).isEmpty
  · rw [if_pos he]
    exact ⟨[], by simp [List.dropWhile_cons, hc]⟩
  · rw [if_neg he]
    refine ⟨xs.dropWhile Char.isWhitespace, ?_⟩
    rw [List.reverse_append]
    simp [List.dropWhile_cons, hc]

lemma infix_dropWhile (seg l : List Char) (a : Char) (ha : seg.head? = some a)
    (hwa : a.isWhitespace = false) (h : seg <:+: l) :
    seg <:+: l.dropWhile Char.isWhitespace := by
  obtain ⟨u, v, rfl⟩ := h
  induction u with
  | nil =>
    cases seg with
    | nil => simp at ha
    | cons a' rest =>
      obtain rfl : a' = a := by simpa using ha
      rw [List.nil_append, List.cons_append, List.dropWhile_cons, if_neg (by simp [hwa])]
      exact ⟨[], v, rfl⟩
  | cons c u ih =>
    by_cases hc : c.isWhitespace
    · rw [List.cons_append, List.cons_append, List.dropWhile_cons,
        if_pos (by simp [hc])]
      exact ih
    · rw [List.cons_append, List.cons_append, List.dropWhile_cons,
        if_neg (by simp [hc])]
      exact ⟨c :: u, v, by simp⟩

lemma infix_trimChars (seg l : List Char) (a b : Char) (ha : seg.head? = some a)
    (hwa : a.isWhitespace = false) (hb : seg.getLast? = some b)
    (hwb : b.isWhitespace = false) (h : seg <:+: l) :
    seg <:+: trimChars l := by
  unfold trimChars
  have h1 : seg <:+: l.dropWhile Char.isWhitespace :=
    infix_dropWhile seg l a ha hwa h
  have h2 : seg.reverse <:+: (l.dropWhile Char.isWhitespace).reverse :=
    List.reverse_infix.mpr h1
  have hrevhead : seg.reverse.head? = some b := by
    rw [List.head?_reverse]; exact hb
  have h3 := infix_dropWhile seg.reverse _ b hrevhead hwb h2
  exact List.reverse_infix.mp (by rw [List.reverse_reverse]; exact h3)

lemma stepChar_shape (st : SplitState) (ch : Char) :
    ((stepChar st ch).current = st.current ++ [ch]
      ∧ (stepChar st ch).statements = st.statements)
    ∨ (ch = ';'
      ∧ (stepChar st ch).current = []
      ∧ (stepChar st ch).statements =
          (if (trimChars (st.current ++ [ch])).isEmpty then st.statements
           else st.statements ++ [trimChars (st.current ++ [ch])])) := by
  unfold stepChar
  by_cases h1 : st.escape_next = true
  · rw [if_pos h1]; exact Or.inl ⟨rfl, rfl⟩
  · rw [if_neg h1]
    by_cases h2 : (ch == '\\' && st.in_string) = true
    · rw [if_pos h2]; exact Or.inl ⟨rfl, rfl⟩
    · rw [if_neg h2]
      by_cases h3 : (!st.in_string && (ch == '\'' || ch == '"')) = true
      · rw [if_pos h3]; exact Or.inl ⟨rfl, rfl⟩
      · rw [if_neg h3]
        by_cases h4 : (st.in_string && ch == st.string_char) = true
        · rw [if_pos h4]; exact Or.inl ⟨rfl, rfl⟩
        · rw [if_neg h4]
          by_cases h5 : (!st.in_string && ch == ';') = true
          · rw [if_pos h5]
            exact Or.inr ⟨eq_of_beq ((Bool.and_eq_true _ _).mp h5).2, rfl, rfl⟩
          · rw [if_neg h5]; exact Or.inl ⟨rfl, rfl⟩

lemma foldl_statements_prefix (l : List Char) (st : SplitState) :
    ∃ tail, (l.foldl stepChar st).statements = st.statements ++ tail := by
  induction l generalizing st with
  | nil => exact ⟨[], by simp⟩
  | cons c cs ih =>
    rw [List.foldl_cons]
    obtain ⟨t₂, h₂⟩ := ih (stepChar st c)
    rcases stepChar_shape st c with ⟨-, hs⟩ | ⟨-, -, hs⟩
    · exact ⟨t₂, by rw [h₂, hs]⟩
    · by_cases he : (trimChars (st.current ++ [c])).isEmpty
      · exact ⟨t₂, by rw [h₂, hs, if_pos he]⟩
      · exact ⟨[trimChars (st.current ++ [c])] ++ t₂,
          by rw [h₂, hs, if_neg he, List.append_assoc]⟩

lemma mem_runSplit_of_mem (st : SplitState) (l : List Char) (s : List Char)
    (h : s ∈ st.statements) : s ∈ runSplit st l := by
  unfold runSplit
  dsimp only
  obtain ⟨tail, htail⟩ := foldl_statements_prefix l st
  split_ifs
  · rw [htail]
    exact List.mem_append_left _ h
  · rw [htail]
    exact List.mem_append_left _ (List.mem_append_left _ h)

lemma foldl_statements_good (l : List Char) (st : SplitState)
    (h : ∀ s ∈ st.statements, s ≠ [] ∧ s.getLast? = some ';' ∧ nonWs s ≠ []) :
    ∀ s ∈ (l.foldl stepChar st).statements,
      s ≠ [] ∧ s.getLast? = some ';' ∧ nonWs s ≠ [] := by
  induction l generalizing st with
  | nil => exact h
  | cons c cs ih =>
    rw [List.foldl_cons]
    apply ih
    rcases stepChar_shape st c with ⟨-, hs⟩ | ⟨hc, -, hs⟩
    · rw [hs]; exact h
    · rw [hs]
      by_cases he : (trimChars (st.current ++ [c])).isEmpty
      · rw [if_pos he]; exact h
      · rw [if_neg he]
        intro s hmem
        rcases List.mem_append.mp hmem with hm | hm
        · exact h s hm
        · have hseq : s = trimChars (st.current ++ [c]) := by simpa using hm
          subst hseq
          subst hc
          obtain ⟨zs, hz⟩ := trimChars_concat st.current ';' (by decide)
          refine ⟨by rw [hz]; simp, by rw [hz]; exact List.getLast?_concat _, ?_⟩
          rw [hz, nonWs_append]
          have : nonWs [';'] = [';'] := by decide
          simp [this]

lemma splitChars_dropLast_semicolon (cs : List Char) :
    ∀ s ∈ (splitChars cs).dropLast, s.getLast? = some ';' := by
  intro s hmem
  have hgood := foldl_statements_good cs initialSplitState
    (by intro s hs; simp [initialSplitState] at hs)
  unfold splitChars runSplit at hmem
  dsimp only at hmem
  split_ifs at hmem with he
  · exact (hgood s ((List.dropLast_sublist _).subset hmem)).2.1
  · rw [List.dropLast_concat] at hmem
    exact (hgood s hmem).2.1

lemma splitChars_statements_nonempty (cs : List Char) :
    ∀ s ∈ splitChars cs, s ≠ [] ∧ trimChars s ≠ [] := by
  intro s hmem
  have hgood := foldl_statements_good cs initialSplitState
    (by intro s hs; simp [initialSplitState] at hs)
  unfold splitChars runSplit at hmem
  dsimp only at hmem
  split_ifs at hmem with he
  · have h := hgood s hmem
    exact ⟨h.1, trimChars_ne_nil _ h.2.2⟩
  · rcases List.mem_append.mp hmem with hm | hm
    · have h := hgood s hm
      exact ⟨h.1, trimChars_ne_nil _ h.2.2⟩
    · have hseq : s = trimChars (cs.foldl stepChar initialSplitState).current := by
        simpa using hm
      subst hseq
      have hne : trimChars (cs.foldl stepChar initialSplitState).current ≠ [] := by
        intro h0
        exact he (List.isEmpty_iff.mpr h0)
      refine ⟨hne, ?_⟩
      apply trimChars_ne_nil
      rw [nonWs_trimChars]
      intro h0
      exact hne (trimChars_eq_nil_of_nonWs_nil _ h0)

lemma stepChar_content (st : SplitState) (c : Char) :
    nonWs ((stepChar st c).statements.flatten ++ (stepChar st c).current)
      = nonWs (st.statements.flatten ++ st.current ++ [c]) := by
  rcases stepChar_shape st c with ⟨hcur, hs⟩ | ⟨-, hcur, hs⟩
  · rw [hcur, hs, List.append_assoc]
  · rw [hcur, hs]
    by_cases he : (trimChars (st.current ++ [c])).isEmpty
    · rw [if_pos he]
      have h0 : nonWs (st.current ++ [c]) = [] := by
        rw [← nonWs_trimChars, List.isEmpty_iff.mp he]
        rfl
      rw [List.append_nil, List.append_assoc, nonWs_append, h0, List.append_nil]
    · rw [if_neg he]
      simp [List.flatten_append, nonWs_append, nonWs_trimChars,
        List.append_assoc]

lemma foldl_content (l : List Char) (st : SplitState) :
    nonWs ((l.foldl stepChar st).statements.flatten
        ++ (l.foldl stepChar st).current)
      = nonWs (st.statements.flatten ++ st.current ++ l) := by
  induction l generalizing st with
  | nil => simp
  | cons c cs ih =>
    rw [List.foldl_cons, ih (stepChar st c)]
    calc nonWs ((stepChar st c).statements.flatten ++ (stepChar st c).current ++ cs)
        = nonWs ((stepChar st c).statements.flatten ++ (stepChar st c).current)
            ++ nonWs cs := nonWs_append _ _
      _ = nonWs (st.statements.flatten ++ st.current ++ [c]) ++ nonWs cs := by
            rw [stepChar_content]
      _ = nonWs (st.statements.flatten ++ st.current ++ (c :: cs)) := by
            rw [← nonWs_append]
            congr 1
            simp [List.append_assoc]

lemma splitChars_content (cs : List Char) :
    nonWs (splitChars cs).flatten = nonWs cs := by
  unfold splitChars runSplit
  dsimp only
  have h : nonWs ((cs.foldl stepChar initialSplitState).statements.flatten
        ++ (cs.foldl stepChar initialSplitState).current) = nonWs cs :=
    foldl_content cs initialSplitState
  split_ifs with he
  · have h0 : nonWs (cs.foldl stepChar initialSplitState).current = [] := by
      rw [← nonWs_trimChars, List.isEmpty_iff.mp he]
      rfl
    rw [nonWs_append, h0, List.append_nil] at h
    exact h
  · rw [List.flatten_append, List.flatten_cons, List.flatten_nil,
      List.append_nil, nonWs_append, nonWs_trimChars, ← nonWs_append, h]

lemma stepChar_flags (stm : List (List Char)) (cur : List Char) (sc : Char)
    (c : Char) (hc1 : c ≠ '\'') (hc2 : c ≠ '"') :
    (stepChar ⟨stm, cur, false, sc, false⟩ c).in_string = false
    ∧ (stepChar ⟨stm, cur, false, sc, false⟩ c).escape_next = false := by
  unfold stepChar
  rw [if_neg (by simp), if_neg (by simp), if_neg (by simp [hc1, hc2]),
    if_neg (by simp)]
  by_cases h : (!(false : Bool) && (c == ';')) = true
  · rw [if_pos h]; exact ⟨rfl, rfl⟩
  · rw [if_neg h]; exact ⟨rfl, rfl⟩

lemma foldl_flags (u : List Char) :
    ∀ st : SplitState, st.in_string = false → st.escape_next = false →
      (∀ c ∈ u, c ≠ '\'' ∧ c ≠ '"') →
      (u.foldl stepChar st).in_string = false
      ∧ (u.foldl stepChar st).escape_next = false := by
  induction u with
  | nil => intro st h1 h2 _; exact ⟨h1, h2⟩
  | cons c cs ih =>
    intro st h1 h2 hu
    obtain ⟨stm, cur, instr, sc, esc⟩ := st
    dsimp only at h1 h2
    subst h1
    subst h2
    rw [List.foldl_cons]
    obtain ⟨g1, g2⟩ := stepChar_flags stm cur sc c
      (hu c (List.mem_cons_self ..)).1 (hu c (List.mem_cons_self ..)).2
    exact ih _ g1 g2 fun d hd => hu d (List.mem_cons_of_mem _ hd)

lemma stepChar_open (stm : List (List Char)) (cur : List Char) (sc : Char)
    (q : Char) (hq : q = '\'' ∨ q = '"') :
    stepChar ⟨stm, cur, false, sc, false⟩ q = ⟨stm, cur ++ [q], true, q, false⟩ := by
  rcases hq with rfl | rfl <;> rfl

lemma stepChar_close (stm : List (List Char)) (cur : List Char) (q : Char)
    (hq : q = '\'' ∨ q = '"') :
    stepChar ⟨stm, cur, true, q, false⟩ q = ⟨stm, cur ++ [q], false, q, false⟩ := by
  rcases hq with rfl | rfl <;> rfl

lemma stepChar_inString (stm : List (List Char)) (cur : List Char)
    (q c : Char) (hc1 : c ≠ q) (hc2 : c ≠ '\\') :
    stepChar ⟨stm, cur, true, q, false⟩ c = ⟨stm, cur ++ [c], true, q, false⟩ := by
  unfold stepChar
  rw [if_neg (by simp), if_neg (by simp [hc2]), if_neg (by simp),
    if_neg (by simp [hc1]), if_neg (by simp)]

lemma stepChar_backslash (stm : List (List Char)) (cur : List Char) (q : Char) :
    stepChar ⟨stm, cur, true, q, false⟩ '\\' = ⟨stm, cur ++ ['\\'], true, q, true⟩ :=
  rfl

lemma stepChar_escaped (stm : List (List Char)) (cur : List Char)
    (instr : Bool) (sc c : Char) :
    stepChar ⟨stm, cur, instr, sc, true⟩ c = ⟨stm, cur ++ [c], instr, sc, false⟩ :=
  rfl

lemma foldl_body (q : Char) {w : List Char} (hw : SBody q w) :
    ∀ (stm : List (List Char)) (cur : List Char),
      w.foldl stepChar ⟨stm, cur, true, q, false⟩ = ⟨stm, cur ++ w, true, q, false⟩ := by
  induction hw with
  | nil => intro stm cur; simp
  | @chr c cs hcq hcb htail ih =>
    intro stm cur
    rw [List.foldl_cons, stepChar_inString stm cur q c hcq hcb, ih stm (cur ++ [c])]
    simp [List.append_assoc]
  | @esc c cs htail ih =>
    intro stm cur
    rw [List.foldl_cons, stepChar_backslash stm cur q, List.foldl_cons,
      stepChar_escaped stm (cur ++ ['\\']) true q c, ih stm ((cur ++ ['\\']) ++ [c])]
    simp [List.append_assoc]

lemma seg_survives (seg : List Char) (a b : Char) (ha : seg.head? = some a)
    (hwa : a.isWhitespace = false) (hb : seg.getLast? = some b)
    (hwb : b.isWhitespace = false) :
    ∀ (v : List Char) (st : SplitState), seg <:+: st.current →
      ∃ out ∈ runSplit st v, seg <:+: out := by
  intro v
  induction v with
  | nil =>
    intro st hinf
    have hamem : a ∈ seg := List.mem_of_mem_head? (by simp [ha])
    have hnw : nonWs st.current ≠ [] := by
      intro h0
      have hmem : a ∈ st.current := hinf.subset hamem
      have := List.filter_eq_nil_iff.mp h0 a hmem
      simp [hwa] at this
    have ht : trimChars st.current ≠ [] := trimChars_ne_nil _ hnw
    have he : ¬ (trimChars st.current).isEmpty = true := fun hh =>
      ht (List.isEmpty_iff.mp hh)
    refine ⟨trimChars st.current, ?_,
      infix_trimChars seg st.current a b ha hwa hb hwb hinf⟩
    unfold runSplit
    dsimp only
    rw [List.foldl_nil, if_neg he]
    exact List.mem_append_right _ (List.mem_singleton.mpr rfl)
  | cons c v ih =>
    intro st hinf
    have hrun : runSplit st (c :: v) = runSplit (stepChar st c) v := by
      unfold runSplit
      rw [List.foldl_cons]
    rw [hrun]
    rcases stepChar_shape st c with ⟨hcur, -⟩ | ⟨hc, hcur, hs⟩
    · apply ih (stepChar st c)
      rw [hcur]
      exact hinf.trans (List.prefix_append _ _).isInfix
    · subst hc
      have hinf2 : seg <:+: st.current ++ [';'] :=
        hinf.trans (List.prefix_append _ _).isInfix
      have htr : seg <:+: trimChars (st.current ++ [';']) :=
        infix_trimChars seg _ a b ha hwa hb hwb hinf2
      obtain ⟨zs, hz⟩ := trimChars_concat st.current ';' (by decide)
      have hne : ¬ (trimChars (st.current ++ [';'])).isEmpty = true := by
        rw [hz]
        simp
      have hsmem : trimChars (st.current ++ [';']) ∈ (stepChar st ';').statements := by
        rw [hs, if_neg hne]
        exact List.mem_append_right _ (List.mem_singleton.mpr rfl)
      exact ⟨trimChars (st.current ++ [';']), mem_runSplit_of_mem _ v _ hsmem, htr⟩

lemma splitter_segment_infix (u w v : List Char) (q : Char)
    (hq : q = '\'' ∨ q = '"')
    (hu : ∀ c ∈ u, c ≠ '\'' ∧ c ≠ '"')
    (hw : SBody q w) :
    ∃ out ∈ splitChars (u ++ q :: (w ++ q :: v)), (q :: (w ++ [q])) <:+: out := by
  have hqw : q.isWhitespace = false := by rcases hq with rfl | rfl <;> decide
  rcases hst₁ : u.foldl stepChar initialSplitState with ⟨stm, cur, instr, sc, esc⟩
  have hf := foldl_flags u initialSplitState rfl rfl hu
  rw [hst₁] at hf
  dsimp only at hf
  obtain ⟨f1, f2⟩ := hf
  subst f1
  subst f2
  have hstate : (u ++ q :: (w ++ q :: v)).foldl stepChar initialSplitState
      = v.foldl stepChar ⟨stm, cur ++ (q :: (w ++ [q])), false, q, false⟩ := by
    rw [List.foldl_append, List.foldl_cons, hst₁, stepChar_open stm cur sc q hq,
      List.foldl_append, List.foldl_cons, foldl_body q hw stm (cur ++ [q]),
      stepChar_close stm ((cur ++ [q]) ++ w) q hq]
    congr 1
    simp [List.append_assoc]
  have hsplit : splitChars (u ++ q :: (w ++ q :: v))
      = runSplit ⟨stm, cur ++ (q :: (w ++ [q])), false, q, false⟩ v := by
    unfold splitChars runSplit
    rw [hstate]
  have hseg : (q :: (w ++ [q]))
      <:+: (SplitState.mk stm (cur ++ (q :: (w ++ [q]))) false q false).current :=
    ⟨cur, [], by simp⟩
  obtain ⟨out, hmem, hinf⟩ := seg_survives (q :: (w ++ [q])) q q rfl hqw
    (by rw [show q :: (w ++ [q]) = (q :: w) ++ [q] by simp]
        exact List.getLast?_concat _)
    hqw v _ hseg
  rw [hsplit]
  exact ⟨out, hmem, hinf⟩

/-- C5: the fallback character-scan splitter never splits inside a quoted
string (a quoted literal — with backslash-escaped characters not closing
it — survives inside a single emitted statement, whatever surrounds it),
drops nothing but whitespace (the emitted statements carry exactly the
non-whitespace characters of the input, in order), keeps the terminating
semicolon attached to every statement but possibly the last, and emits no
statement that is empty after trimming. -/
theorem C5_fallback_splitter :
    (∀ (u w v : List Char) (q : Char), (q = '\'' ∨ q = '"') →
        (∀ c ∈ u, c ≠ '\'' ∧ c ≠ '"') → SBody q w →
        ∃ out ∈ split_by_semicolon ⟨u ++ q :: (w ++ q :: v)⟩,
          (q :: (w ++ [q])) <:+: out.data)
    ∧ (∀ sql : String,
        nonWs ((split_by_semicolon sql).map String.data).flatten
          = nonWs sql.data)
    ∧ (∀ sql : String, ∀ out ∈ (split_by_semicolon sql).dropLast,
        out.data.getLast? = some ';')
    ∧ (∀ sql : String, ∀ out ∈ split_by_semicolon sql,
        out ≠ "" ∧ trimChars out.data ≠ []) := by
  refine ⟨?_, ?_, ?_, ?_⟩
  · intro u w v q hq hu hw
    obtain ⟨out, hmem, hinf⟩ := splitter_segment_infix u w v q hq hu hw
    unfold split_by_semicolon
    exact ⟨⟨out⟩, List.mem_map_of_mem _ hmem, hinf⟩
  · intro sql
    unfold split_by_semicolon
    rw [List.map_map]
    have hid : (String.data ∘ fun cs => (⟨cs⟩ : String)) = id :=
      funext fun cs => rfl
    rw [hid, List.map_id]
    exact splitChars_content sql.data
  · intro sql out hmem
    unfold split_by_semicolon at hmem
    rw [← List.map_dropLast] at hmem
    obtain ⟨cs, hcs, rfl⟩ := List.mem_map.mp hmem
    exact splitChars_dropLast_semicolon sql.data cs hcs
  · intro sql out hmem
    unfold split_by_semicolon at hmem
    obtain ⟨cs, hcs, rfl⟩ := List.mem_map.mp hmem
    obtain ⟨h1, h2⟩ := splitChars_statements_nonempty sql.data cs hcs
    refine ⟨?_, h2⟩
    intro h0
    apply h1
    have hdata : (⟨cs⟩ : String).data = ("" : String).data := by rw [h0]
    simpa using hdata

/-- C5 witness: the quoted literal of the input string made of the
characters of a semicolon-carrying single-quoted literal stays inside one
emitted statement. -/
theorem C5_fallback_splitter_witness :
    ∃ out ∈ split_by_semicolon ⟨[] ++ '\'' :: (['a', ';', 'b'] ++ '\'' :: [])⟩,
      ('\'' :: (['a', ';', 'b'] ++ ['\''])) <:+: out.data :=
  C5_fallback_splitter.1 [] ['a', ';', 'b'] [] '\''
    (Or.inl rfl)
    (fun c hc => absurd hc (List.not_mem_nil c))
    (SBody.chr (by decide) (by decide)
      (SBody.chr (by decide) (by decide)
        (SBody.chr (by decide) (by decide) SBody.nil)))

end Dataforge
